import Mathlib

/-!
Verification of the trading-bot storage and trading layers.

This file is a shallow embedding of the parts of `src/database.py` and
`src/bot.py` that the specification claims talk about, together with
theorems settling those claims.

Modelling conventions:
* SQL tables become Lean lists of row records; each `Database` method
  becomes a pure function from a `Store` to a `Store` (plus its return
  value).  A method that runs inside one committed transaction is one
  function application; a rolled-back transaction returns the input
  store unchanged.
* Python `float` values flowing through these code paths are modelled as
  exact rationals, except where a claim hinges on rounding behaviour
  (the sell-amount computation), where IEEE double rounding of the
  division result is modelled exactly on rationals.
* Network effects (RPC reads, aggregator HTTP calls, submission) are
  modelled by passing the response of each external call as an explicit
  argument; the failure of a call is a constructor of that argument
  type, mirroring the `status_code != 200` / exception branches of the
  source.
-/

namespace Bot

/-- Row of the `users` table (`src/database.py`, `CREATE TABLE users`).
The `id` surrogate key and `created_at` timestamp carry no logic and are
omitted. -/
structure UserRow where
  telegram_id : Int
  username : String
  wallet_address : String
  private_key : String
  deriving DecidableEq, Repr

/-- Value stored in a settings column.  SQLite columns are dynamically
typed, and `update_settings` stores whatever value the caller passes, so
a settings field is a tagged value. -/
inductive SettingVal where
  | num (q : ℚ)
  | flag (b : Bool)
  | str (s : String)
  deriving DecidableEq, Repr

/-- Row of the `settings` table (`src/database.py`, `CREATE TABLE settings`). -/
structure SettingsRow where
  telegram_id : Int
  slippage : SettingVal
  auto_buy_amount : SettingVal
  mev_protection : SettingVal
  priority_fee : SettingVal
  deriving DecidableEq, Repr

/-- Row of the `trades` table (`src/database.py`, `CREATE TABLE trades`).
`status` always gets its default and is omitted, as are `id` and
`created_at`. -/
structure TradeRow where
  telegram_id : Int
  token_address : String
  trade_type : String
  amount_in : ℚ
  amount_out : ℚ
  signature : String
  deriving DecidableEq, Repr

/-- Row of the `positions` table (`src/database.py`, `CREATE TABLE
positions`).  The schema declares `UNIQUE(telegram_id, token_address)`;
the theorems below carry that as an explicit hypothesis where they need
it. -/
structure PositionRow where
  telegram_id : Int
  token_address : String
  symbol : String
  name : String
  amount : ℚ
  entry_price : ℚ
  deriving DecidableEq, Repr

/-- The four tables of the store. -/
structure Store where
  users : List UserRow
  settings : List SettingsRow
  trades : List TradeRow
  positions : List PositionRow
  deriving DecidableEq, Repr

/-- The `(telegram_id, token_address)` key of the `positions` table. -/
def posKey (tid : Int) (tok : String) (p : PositionRow) : Bool :=
  p.telegram_id == tid && p.token_address == tok

/-- Total recorded amount for one `(telegram_id, token_address)` key.
Under the schema uniqueness constraint at most one row matches and this
is that row's `amount` (or `0` when there is no row). -/
def posAmount (s : Store) (tid : Int) (tok : String) : ℚ :=
  ((s.positions.filter (posKey tid tok)).map PositionRow.amount).sum

/-- `Database.update_position` (`src/database.py` lines 349-384): a single
`INSERT ... ON CONFLICT (telegram_id, token_address) DO UPDATE SET
amount = amount + excluded.amount` statement.  On conflict only `amount`
(and the `updated_at` timestamp, not modelled) changes; `symbol`, `name`
and `entry_price` of the existing row are kept.  Being one SQL statement,
the whole merge is one atomic step of the model. -/
def update_position (s : Store) (tid : Int) (tok sym nm : String)
    (amount entry_price : ℚ) : Store :=
  if s.positions.any (posKey tid tok) then
    { s with positions :=
        s.positions.map fun p =>
          if posKey tid tok p then { p with amount := p.amount + amount } else p }
  else
    { s with positions := s.positions ++ [⟨tid, tok, sym, nm, amount, entry_price⟩] }

/-- `Database.log_trade` (`src/database.py` lines 301-326): appends one row
to the append-only `trades` table. -/
def log_trade (s : Store) (tid : Int) (tok ttype : String)
    (amount_in amount_out : ℚ) (signature : String) : Store :=
  { s with trades := s.trades ++ [⟨tid, tok, ttype, amount_in, amount_out, signature⟩] }

/-- The fixed allow-list of mutable settings fields
(`src/database.py` line 286). -/
def allowedSettingsKeys : List String :=
  ["slippage", "auto_buy_amount", "mev_protection", "priority_fee"]

/-- One `UPDATE settings SET {key} = value` statement applied to a row.
The key has already been checked against `allowedSettingsKeys`, so the
final branch is unreachable in `update_settings`. -/
def applyKV (r : SettingsRow) (k : String) (v : SettingVal) : SettingsRow :=
  if k = "slippage" then { r with slippage := v }
  else if k = "auto_buy_amount" then { r with auto_buy_amount := v }
  else if k = "mev_protection" then { r with mev_protection := v }
  else if k = "priority_fee" then { r with priority_fee := v }
  else r

/-- Effect of a whole `update_settings` call on a single row: every
allow-listed pair is applied in order, every other pair is skipped. -/
def applyAllowed (r : SettingsRow) (kvs : List (String × SettingVal)) : SettingsRow :=
  kvs.foldl (fun r kv => if kv.1 ∈ allowedSettingsKeys then applyKV r kv.1 kv.2 else r) r

/-- One iteration of the `update_settings` loop over the whole table:
an allow-listed key updates the rows with the given `telegram_id`, any
other key executes nothing. -/
def settingsStep (tid : Int) (rows : List SettingsRow) (kv : String × SettingVal) :
    List SettingsRow :=
  if kv.1 ∈ allowedSettingsKeys then
    rows.map fun r => if r.telegram_id = tid then applyKV r kv.1 kv.2 else r
  else rows

/-- `Database.update_settings` (`src/database.py` lines 281-298): iterates
over the input dictionary and, for each key in the allow-list, executes
`UPDATE settings SET {key} = value WHERE telegram_id = tid`; keys outside
the allow-list are skipped.  The whole loop runs in one transaction. -/
def update_settings (s : Store) (tid : Int) (kvs : List (String × SettingVal)) : Store :=
  { s with settings := kvs.foldl (settingsStep tid) s.settings }

/-- Default settings row created by `create_user`; the schema defaults are
`slippage 15.0`, `auto_buy_amount 0.1`, `mev_protection true`,
`priority_fee 'medium'` (REAL defaults modelled as exact rationals). -/
def defaultSettingsRow (tid : Int) : SettingsRow :=
  ⟨tid, .num 15, .num (1/10), .flag true, .str "medium"⟩

/-- `Database.create_user` (`src/database.py` lines 213-240): inserts the
user row and the default settings row inside one `get_cursor` block (one
transaction).  A uniqueness violation on either insert raises, the
context manager rolls the transaction back, and the method catches the
exception and returns `False`; hence the failing call leaves the store
unchanged. -/
def create_user (s : Store) (tid : Int) (username wallet pk : String) : Store × Bool :=
  if s.users.any (fun u => u.telegram_id == tid) then (s, false)
  else if s.settings.any (fun r => r.telegram_id == tid) then (s, false)
  else
    ({ s with
        users := s.users ++ [⟨tid, username, wallet, pk⟩],
        settings := s.settings ++ [defaultSettingsRow tid] }, true)

/-- How one run through `Database.get_cursor` can go: which of the steps
inside the `try` block raise.  `conn.cursor()` acquisition, the body of
the `with` block, and `conn.commit()` can each raise; the `close` calls
themselves are assumed not to raise. -/
structure CursorRun where
  cursorAcqRaises : Bool
  bodyRaises : Bool
  commitRaises : Bool
  deriving DecidableEq, Repr

/-- Observable outcome of one `get_cursor` run. -/
structure CursorTrace where
  committed : Bool
  rolledBack : Bool
  cursorClosed : Bool
  connClosed : Bool
  raised : Bool
  deriving DecidableEq, Repr

/-- `Database.get_cursor` (`src/database.py` lines 47-63).  The connection
is obtained before the `try`; the cursor is bound inside it.  Any
exception in the `try` triggers `conn.rollback()` and a re-raise.  The
`finally` block runs `cursor.close()` then `conn.close()` - but when
cursor acquisition itself raised, the name `cursor` was never bound, so
`cursor.close()` raises `NameError` and `conn.close()` is never
executed. -/
def get_cursor (r : CursorRun) : CursorTrace :=
  let cursorBound := !r.cursorAcqRaises
  let tryRaised :=
    r.cursorAcqRaises || (cursorBound && r.bodyRaises) ||
      (cursorBound && !r.bodyRaises && r.commitRaises)
  { committed := cursorBound && !r.bodyRaises && !r.commitRaises
    rolledBack := tryRaised
    cursorClosed := cursorBound
    connClosed := cursorBound
    raised := tryRaised }

/-- `LAMPORTS_PER_SOL` (`src/bot.py` line 49). -/
def LAMPORTS_PER_SOL : ℚ := 1000000000

/-- `SolanaTrader.get_balance` (`src/bot.py` lines 62-71).  The RPC
response is passed in: `.error` is an exception from the client (caught,
logged, and turned into `0.0`), `.ok none` is a response whose `value`
is `None`, `.ok (some lam)` is a balance of `lam` lamports.  The source
performs no store access at all, so the model takes no `Store`. -/
def get_balance (resp : Except String (Option Nat)) : ℚ :=
  match resp with
  | .error _ => 0
  | .ok none => 0
  | .ok (some lam) => (lam : ℚ) / LAMPORTS_PER_SOL

/-- `SolanaTrader.get_token_balance` (`src/bot.py` lines 286-301).  The
parsed RPC response is a list of token accounts, each carrying the
`tokenAmount.amount` field as an optional integer (`none` models a value
on which `int(...)` raises, which the enclosing `except` turns into
`0`).  The source returns on the first account, returns `0` for an empty
account list, and returns `0` on any exception; it never touches the
store. -/
def get_token_balance (resp : Except String (List (Option Int))) : Int :=
  match resp with
  | .error _ => 0
  | .ok [] => 0
  | .ok (none :: _) => 0
  | .ok (some n :: _) => n

/-- Round a rational to the nearest integer, ties to even.  This is the
rounding used on the scaled significand of an IEEE double. -/
def rne (q : ℚ) : Int :=
  let f := ⌊q⌋
  let r := q - (f : ℚ)
  if r < 1/2 then f
  else if 1/2 < r then f + 1
  else if f % 2 = 0 then f else f + 1

/-- Integer power of two as a rational, for scaling significands. -/
def pow2 (e : Int) : ℚ :=
  if 0 ≤ e then ((2 ^ e.toNat : ℕ) : ℚ) else 1 / ((2 ^ (-e).toNat : ℕ) : ℚ)

/-- Scale a positive rational into the binary64 significand range
`[2^52, 2^53)`, returning the scaled value `m` and the binary exponent
`e` such that the input equals `m * 2 ^ e`.  The fuel bound of `1200`
comfortably covers every magnitude the double format can represent, so
it never runs out on the values this file evaluates. -/
def mantissaShift : Nat → ℚ → Int → ℚ × Int
  | 0, q, e => (q, e)
  | fuel + 1, q, e =>
    if q < 4503599627370496 then mantissaShift fuel (q * 2) (e - 1)
    else if 9007199254740992 ≤ q then mantissaShift fuel (q / 2) (e + 1)
    else (q, e)

/-- Round a positive rational to the nearest IEEE binary64 value
(normal range; overflow and subnormals do not occur at the magnitudes
the sell path produces).  The value is scaled so that the significand
lies in `[2^52, 2^53)`, rounded to the nearest integer with ties to
even, and scaled back. -/
def roundDouble (q : ℚ) : ℚ :=
  if q ≤ 0 then q
  else
    let me := mantissaShift 1200 q 0
    (rne me.1 : ℚ) * pow2 me.2

/-- The sell-amount computation `int(token_balance * percentage / 100)`
(`src/bot.py` line 222).  `token_balance * percentage` is an exact
Python integer; `/ 100` is float true division, which CPython rounds
correctly to the nearest double; `int` then truncates toward zero
(equals the floor for the non-negative values this path produces). -/
def pySellAmount (token_balance percentage : Int) : Int :=
  ⌊roundDouble ((token_balance * percentage : ℚ) / 100)⌋

/-- Outcome of the Jupiter quote request: non-200 status, or a quote
carrying `outAmount` (in smallest units of the output asset). -/
inductive QuoteResp where
  | httpError
  | ok (outAmount : Int)
  deriving DecidableEq, Repr

/-- Outcome of the Jupiter swap-build request: non-200 status, a 200
response missing `swapTransaction`, or the transaction blob. -/
inductive BuildResp where
  | httpError
  | noTransaction
  | ok (tx : String)
  deriving DecidableEq, Repr

/-- Outcome of `send_raw_transaction`: an exception (caught by the outer
`except`, whose text becomes the error) or a signature. -/
inductive SubmitResp where
  | err (msg : String)
  | ok (sig : String)
  deriving DecidableEq, Repr

/-- Result dictionary of the two swap methods. -/
inductive SwapResult where
  | success (signature : String) (amount_in amount_out : ℚ)
  | failure (error : String)
  deriving DecidableEq, Repr

/-- An aggregator-facing network call issued during a sell. -/
inductive AggCall where
  | quote
  | build
  | submit
  deriving DecidableEq, Repr

/-- `SolanaTrader.swap_sol_for_token` (`src/bot.py` lines 128-202): quote
the SOL amount, build the swap transaction, submit it.  On success the
result carries `amount_in = amount_sol` and `amount_out =
int(quote["outAmount"])`.  Slippage is only forwarded to the API and
does not influence the result shape. -/
def swap_sol_for_token (amount_sol : ℚ) (_slippage : ℚ)
    (q : QuoteResp) (b : BuildResp) (sub : SubmitResp) : SwapResult :=
  match q with
  | .httpError => .failure "Failed to get quote"
  | .ok outAmount =>
    match b with
    | .httpError => .failure "Failed to create swap transaction"
    | .noTransaction => .failure "No swap transaction returned"
    | .ok _ =>
      match sub with
      | .err m => .failure m
      | .ok sig => .success sig amount_sol (outAmount : ℚ)

/-- `SolanaTrader.swap_token_for_sol` (`src/bot.py` lines 204-284): reads
the live token balance from the chain (its only balance source is the
RPC response `chain`; the store is not an argument at all, mirroring the
source, which never consults the cached `positions` row), fails with
`"No tokens to sell"` when that balance is not positive, otherwise
computes the sell amount with `pySellAmount` and runs
quote/build/submit.  The second component lists the aggregator calls
that were issued.  On success `amount_in = sell_amount` and
`amount_out = int(quote["outAmount"]) / LAMPORTS_PER_SOL`. -/
def swap_token_for_sol (chain : Except String (List (Option Int)))
    (percentage : Int) (_slippage : ℚ)
    (q : QuoteResp) (b : BuildResp) (sub : SubmitResp) : SwapResult × List AggCall :=
  let token_balance := get_token_balance chain
  if token_balance ≤ 0 then (.failure "No tokens to sell", [])
  else
    let sell_amount := pySellAmount token_balance percentage
    match q with
    | .httpError => (.failure "Failed to get quote", [.quote])
    | .ok outAmount =>
      match b with
      | .httpError => (.failure "Failed to create swap transaction", [.quote, .build])
      | .noTransaction => (.failure "No swap transaction returned", [.quote, .build])
      | .ok _ =>
        match sub with
        | .err m => (.failure m, [.quote, .build, .submit])
        | .ok sig =>
          (.success sig (sell_amount : ℚ) ((outAmount : ℚ) / LAMPORTS_PER_SOL),
            [.quote, .build, .submit])

/-- Reply rendered by the buy branch of `handle_callback`. -/
inductive BuyReply where
  | noToken
  | insufficientFunds (required available : ℚ)
  | buySuccess (signature : String)
  | buyFailed (error : String)
  deriving DecidableEq, Repr

/-- Reply rendered by the sell branch of `handle_callback`. -/
inductive SellReply where
  | noToken
  | sellSuccess (signature : String)
  | sellFailed (error : String)
  deriving DecidableEq, Repr

/-- The buy branch of `handle_callback` (`src/bot.py` lines 807-897),
entered with an existing user.  Steps, in source order: require a
selected token; read the SOL balance and fail with the
insufficient-balance message (reporting required and available amounts)
when `balance < amount`; run `swap_sol_for_token` (the slippage argument
comes from the read-only `get_settings` call); on success append the
`BUY` trade row via `log_trade`; on failure write nothing.  No other
store operation appears on this path - in particular `update_position`
is never invoked. -/
def handle_buy (s : Store) (user : UserRow) (current_token : Option String)
    (amount slippage : ℚ) (balResp : Except String (Option Nat))
    (q : QuoteResp) (b : BuildResp) (sub : SubmitResp) : Store × BuyReply :=
  match current_token with
  | none => (s, .noToken)
  | some tok =>
    let balance := get_balance balResp
    if balance < amount then (s, .insufficientFunds amount balance)
    else
      match swap_sol_for_token amount slippage q b sub with
      | .success sig _ain aout =>
        (log_trade s user.telegram_id tok "BUY" amount aout sig, .buySuccess sig)
      | .failure e => (s, .buyFailed e)

/-- The sell branch of `handle_callback` (`src/bot.py` lines 900-957),
entered with an existing user.  Requires a selected token, runs
`swap_token_for_sol`, and on success appends the `SELL` trade row with
`amount_in`/`amount_out` taken from the swap result; on failure it
writes nothing.  As in the buy branch, `update_position` is never
invoked. -/
def handle_sell (s : Store) (user : UserRow) (current_token : Option String)
    (percentage : Int) (slippage : ℚ) (chain : Except String (List (Option Int)))
    (q : QuoteResp) (b : BuildResp) (sub : SubmitResp) : Store × SellReply :=
  match current_token with
  | none => (s, .noToken)
  | some tok =>
    match (swap_token_for_sol chain percentage slippage q b sub).1 with
    | .success sig ain aout =>
      (log_trade s user.telegram_id tok "SELL" ain aout sig, .sellSuccess sig)
    | .failure e => (s, .sellFailed e)

/-! ### Helper lemmas about the position upsert -/

/-- Changing only `amount` does not change the `(telegram_id, token_address)`
key of a row. -/
@[simp]
lemma posKey_bump (tid : Int) (tok : String) (p : PositionRow) (a : ℚ) :
    posKey tid tok { p with amount := a } = posKey tid tok p := rfl

lemma bump_filter_sum (tid : Int) (tok : String) (d : ℚ) (l : List PositionRow) :
    (((l.map fun p =>
          if posKey tid tok p then { p with amount := p.amount + d } else p).filter
        (posKey tid tok)).map PositionRow.amount).sum
      = ((l.filter (posKey tid tok)).map PositionRow.amount).sum
        + (l.countP (posKey tid tok) : ℚ) * d := by
  induction l with
  | nil => simp
  | cons p l ih =>
    by_cases hp : posKey tid tok p = true
    · simp only [List.map_cons, hp, if_true, List.filter_cons, posKey_bump,
        List.countP_cons, List.sum_cons, ih]
      push_cast
      ring
    · simp only [List.map_cons, hp, if_false, List.filter_cons, List.countP_cons,
        List.sum_cons, ih, Bool.false_eq_true]
      push_cast
      ring

lemma bump_countP (tid : Int) (tok : String) (d : ℚ) (l : List PositionRow) :
    (l.map fun p =>
        if posKey tid tok p then { p with amount := p.amount + d } else p).countP
      (posKey tid tok) = l.countP (posKey tid tok) := by
  induction l with
  | nil => rfl
  | cons p l ih =>
    by_cases hp : posKey tid tok p = true <;>
      simp [hp, List.countP_cons, ih]

lemma update_position_posAmount (s : Store) (tid : Int) (tok sym nm : String) (d ep : ℚ)
    (h : s.positions.countP (posKey tid tok) ≤ 1) :
    posAmount (update_position s tid tok sym nm d ep) tid tok = posAmount s tid tok + d := by
  unfold update_position
  by_cases hany : s.positions.any (posKey tid tok) = true
  · have h1 : 0 < s.positions.countP (posKey tid tok) :=
      List.countP_pos_iff.mpr (List.any_eq_true.mp hany)
    have hcount : s.positions.countP (posKey tid tok) = 1 := le_antisymm h h1
    simp only [hany, if_true, posAmount]
    rw [bump_filter_sum, hcount]
    push_cast
    ring
  · have h0 : ∀ p ∈ s.positions, ¬ posKey tid tok p = true := by
      intro p hp hkey
      exact hany (List.any_eq_true.mpr ⟨p, hp, hkey⟩)
    have hfil : s.positions.filter (posKey tid tok) = [] := List.filter_eq_nil_iff.mpr h0
    simp only [hany, if_false, posAmount, Bool.false_eq_true]
    simp [List.filter_append, hfil, posKey]

lemma update_position_countP (s : Store) (tid : Int) (tok sym nm : String) (d ep : ℚ)
    (h : s.positions.countP (posKey tid tok) ≤ 1) :
    (update_position s tid tok sym nm d ep).positions.countP (posKey tid tok) ≤ 1 := by
  unfold update_position
  by_cases hany : s.positions.any (posKey tid tok) = true
  · simpa only [hany, if_true, bump_countP] using h
  · have h0 : ∀ p ∈ s.positions, ¬ posKey tid tok p = true := by
      intro p hp hkey
      exact hany (List.any_eq_true.mpr ⟨p, hp, hkey⟩)
    have hz : s.positions.countP (posKey tid tok) = 0 := List.countP_eq_zero.mpr h0
    simp [hany, List.countP_append, hz, posKey, List.countP_cons]

lemma foldl_update_position (tid : Int) (tok sym nm : String) (ep : ℚ) :
    ∀ (ds : List ℚ) (s : Store), s.positions.countP (posKey tid tok) ≤ 1 →
      posAmount (ds.foldl (fun st d => update_position st tid tok sym nm d ep) s) tid tok
          = posAmount s tid tok + ds.sum
        ∧ (ds.foldl (fun st d => update_position st tid tok sym nm d ep) s).positions.countP
            (posKey tid tok) ≤ 1 := by
  intro ds
  induction ds with
  | nil => intro s h; simpa using h
  | cons d ds ih =>
    intro s h
    have h1 := update_position_posAmount s tid tok sym nm d ep h
    have h2 := update_position_countP s tid tok sym nm d ep h
    obtain ⟨ha, hb⟩ := ih (update_position s tid tok sym nm d ep) h2
    refine ⟨?_, by simpa using hb⟩
    rw [List.foldl_cons, ha, h1, List.sum_cons]
    ring

/-- Claim C4: for one `(telegram_id, token_address)` key satisfying the
schema uniqueness constraint, applying any sequence of same-direction
`update_position` deltas - in any order, which models concurrent
upserts, each being one atomic `INSERT ... ON CONFLICT DO UPDATE SET
amount = amount + excluded.amount` statement rather than a
read-then-write - leaves `Position.amount` equal to the previous amount
plus the sum of all deltas: no update is lost, and any two
interleavings agree. -/
theorem update_position_no_lost_updates (s : Store) (tid : Int) (tok sym nm : String)
    (ep : ℚ) (ds ds' : List ℚ)
    (huniq : s.positions.countP (posKey tid tok) ≤ 1)
    (hperm : ds.Perm ds') :
    posAmount (ds.foldl (fun st d => update_position st tid tok sym nm d ep) s) tid tok
        = posAmount s tid tok + ds.sum
      ∧ posAmount (ds'.foldl (fun st d => update_position st tid tok sym nm d ep) s) tid tok
          = posAmount (ds.foldl (fun st d => update_position st tid tok sym nm d ep) s)
              tid tok := by
  have hA := (foldl_update_position tid tok sym nm ep ds s huniq).1
  have hB := (foldl_update_position tid tok sym nm ep ds' s huniq).1
  exact ⟨hA, by rw [hA, hB, hperm.sum_eq]⟩

/-- Witness for C4: two concurrent deltas `2` and `3` on an empty store,
in both orders, both yield amount `5`. -/
theorem update_position_no_lost_updates_witness :
    posAmount (([(2 : ℚ), 3]).foldl
        (fun st d => update_position st 9 "MintC" "SYM" "NameC" d 0) ⟨[], [], [], []⟩)
        9 "MintC"
      = posAmount (⟨[], [], [], []⟩ : Store) 9 "MintC" + ([(2 : ℚ), 3]).sum
    ∧ posAmount (([(3 : ℚ), 2]).foldl
        (fun st d => update_position st 9 "MintC" "SYM" "NameC" d 0) ⟨[], [], [], []⟩)
        9 "MintC"
      = posAmount (([(2 : ℚ), 3]).foldl
          (fun st d => update_position st 9 "MintC" "SYM" "NameC" d 0) ⟨[], [], [], []⟩)
          9 "MintC" :=
  update_position_no_lost_updates ⟨[], [], [], []⟩ 9 "MintC" "SYM" "NameC" 0
    [2, 3] [3, 2] (by decide) (List.Perm.swap 3 2 [])

/-! ### Helper lemmas about the settings allow-list -/

@[simp]
lemma applyKV_telegram_id (r : SettingsRow) (k : String) (v : SettingVal) :
    (applyKV r k v).telegram_id = r.telegram_id := by
  unfold applyKV
  split_ifs <;> rfl

lemma applyAllowed_cons (r : SettingsRow) (kv : String × SettingVal)
    (kvs : List (String × SettingVal)) :
    applyAllowed r (kv :: kvs)
      = applyAllowed (if kv.1 ∈ allowedSettingsKeys then applyKV r kv.1 kv.2 else r) kvs :=
  rfl

lemma applyAllowed_telegram_id (kvs : List (String × SettingVal)) :
    ∀ r : SettingsRow, (applyAllowed r kvs).telegram_id = r.telegram_id := by
  induction kvs with
  | nil => intro r; rfl
  | cons kv kvs ih =>
    intro r
    rw [applyAllowed_cons, ih]
    by_cases h : kv.1 ∈ allowedSettingsKeys <;> simp [h]

lemma foldl_settingsStep (tid : Int) :
    ∀ (kvs : List (String × SettingVal)) (rows : List SettingsRow),
      kvs.foldl (settingsStep tid) rows
        = rows.map fun r => if r.telegram_id = tid then applyAllowed r kvs else r := by
  intro kvs
  induction kvs with
  | nil =>
    intro rows
    simp [applyAllowed]
  | cons kv kvs ih =>
    intro rows
    rw [List.foldl_cons]
    by_cases h : kv.1 ∈ allowedSettingsKeys
    · rw [show settingsStep tid rows kv
          = rows.map fun r => if r.telegram_id = tid then applyKV r kv.1 kv.2 else r
        from by simp [settingsStep, h]]
      rw [ih, List.map_map]
      have hfun : ((fun r => if r.telegram_id = tid then applyAllowed r kvs else r) ∘
            fun r : SettingsRow => if r.telegram_id = tid then applyKV r kv.1 kv.2 else r)
          = fun r => if r.telegram_id = tid then applyAllowed r (kv :: kvs) else r := by
        funext r
        by_cases hr : r.telegram_id = tid
        · simp only [Function.comp, hr, if_true, applyKV_telegram_id, applyAllowed_cons, h]
        · simp [Function.comp, hr]
      rw [hfun]
    · rw [show settingsStep tid rows kv = rows from by simp [settingsStep, h]]
      rw [ih]
      have hfun : (fun (r : SettingsRow) => if r.telegram_id = tid then applyAllowed r kvs else r)
          = fun r => if r.telegram_id = tid then applyAllowed r (kv :: kvs) else r := by
        funext r
        by_cases hr : r.telegram_id = tid
        · simp [hr, applyAllowed_cons, h]
        · simp [hr]
      rw [hfun]

lemma foldl_settingsStep_filter (tid : Int) :
    ∀ (kvs : List (String × SettingVal)) (rows : List SettingsRow),
      kvs.foldl (settingsStep tid) rows
        = (kvs.filter fun kv => decide (kv.1 ∈ allowedSettingsKeys)).foldl
            (settingsStep tid) rows := by
  intro kvs
  induction kvs with
  | nil => intro rows; rfl
  | cons kv kvs ih =>
    intro rows
    by_cases h : kv.1 ∈ allowedSettingsKeys
    · have hd : decide (kv.1 ∈ allowedSettingsKeys) = true := decide_eq_true h
      simp only [List.filter_cons, hd, if_true, List.foldl_cons]
      exact ih _
    · have hd : decide (kv.1 ∈ allowedSettingsKeys) = false := decide_eq_false h
      have hstep : settingsStep tid rows kv = rows := by simp [settingsStep, h]
      simp only [List.filter_cons, hd, Bool.false_eq_true, if_false, List.foldl_cons, hstep]
      exact ih rows

/-- Claim C8: `update_settings` mutates only fields in the fixed
allow-list `{slippage, auto_buy_amount, mev_protection, priority_fee}`.
For any input dictionary: the users, trades and positions tables are
untouched; dropping the keys outside the allow-list from the input gives
the very same result (so such keys cause no change); the key column of
the settings table is unchanged; and every settings row of another user
survives unchanged. -/
theorem update_settings_allowlist_frame (s : Store) (tid : Int)
    (kvs : List (String × SettingVal)) :
    (update_settings s tid kvs).users = s.users
    ∧ (update_settings s tid kvs).trades = s.trades
    ∧ (update_settings s tid kvs).positions = s.positions
    ∧ update_settings s tid kvs
        = update_settings s tid (kvs.filter fun kv => decide (kv.1 ∈ allowedSettingsKeys))
    ∧ (update_settings s tid kvs).settings.map SettingsRow.telegram_id
        = s.settings.map SettingsRow.telegram_id
    ∧ ∀ r ∈ s.settings, r.telegram_id ≠ tid → r ∈ (update_settings s tid kvs).settings := by
  refine ⟨rfl, rfl, rfl, ?_, ?_, ?_⟩
  · unfold update_settings
    rw [foldl_settingsStep_filter]
  · unfold update_settings
    dsimp only
    rw [foldl_settingsStep, List.map_map]
    have hfun : (SettingsRow.telegram_id ∘
          fun r : SettingsRow => if r.telegram_id = tid then applyAllowed r kvs else r)
        = SettingsRow.telegram_id := by
      funext r
      by_cases hr : r.telegram_id = tid <;>
        simp [Function.comp, hr, applyAllowed_telegram_id]
    rw [hfun]
  · intro r hr hne
    unfold update_settings
    dsimp only
    rw [foldl_settingsStep]
    exact List.mem_map.mpr ⟨r, hr, by simp [hne]⟩

/-- Witness for C8: a dictionary containing only the foreign key
`"hacked"` changes nothing, and another user's settings row survives. -/
theorem update_settings_allowlist_frame_witness :
    update_settings ⟨[], [⟨2, .num 15, .num 1, .flag true, .str "medium"⟩], [], []⟩ 1
        [("hacked", .str "boom")]
      = update_settings ⟨[], [⟨2, .num 15, .num 1, .flag true, .str "medium"⟩], [], []⟩ 1
          ([("hacked", .str "boom")].filter fun kv =>
            decide (kv.1 ∈ allowedSettingsKeys))
    ∧ (⟨2, .num 15, .num 1, .flag true, .str "medium"⟩ : SettingsRow)
        ∈ (update_settings ⟨[], [⟨2, .num 15, .num 1, .flag true, .str "medium"⟩], [], []⟩ 1
            [("hacked", .str "boom")]).settings := by
  have h := update_settings_allowlist_frame
    ⟨[], [⟨2, .num 15, .num 1, .flag true, .str "medium"⟩], [], []⟩ 1
    [("hacked", .str "boom")]
  exact ⟨h.2.2.2.1, h.2.2.2.2.2 _ (by simp) (by decide)⟩

/-! ### User creation, cursor discipline, chain reader -/

/-- Claim C10: `create_user` is atomic.  If the user insert or the
settings insert would violate the `telegram_id` uniqueness constraint,
the transaction rolls back, the call returns `false`, and the store is
exactly the input store (neither row persisted).  Otherwise both the
user row and the default settings row are persisted and the call
returns `true`. -/
theorem create_user_atomic (s : Store) (tid : Int) (un w pk : String) :
    (s.users.any (fun u => u.telegram_id == tid) = true →
      create_user s tid un w pk = (s, false))
    ∧ (s.settings.any (fun r => r.telegram_id == tid) = true →
      create_user s tid un w pk = (s, false))
    ∧ (s.users.any (fun u => u.telegram_id == tid) = false →
      s.settings.any (fun r => r.telegram_id == tid) = false →
      create_user s tid un w pk
        = ({ s with
              users := s.users ++ [⟨tid, un, w, pk⟩],
              settings := s.settings ++ [defaultSettingsRow tid] }, true)) := by
  refine ⟨?_, ?_, ?_⟩
  · intro h
    simp [create_user, h]
  · intro h
    by_cases hu : s.users.any (fun u => u.telegram_id == tid) = true
    · simp [create_user, hu]
    · simp [create_user, hu, h]
  · intro hu hs
    simp [create_user, hu, hs]

/-- Witness for C10: a fresh user is created with both rows; re-creating
the same `telegram_id` fails and leaves the store untouched. -/
theorem create_user_atomic_witness :
    create_user ⟨[], [], [], []⟩ 5 "bob" "Wallet5" "Key5"
      = (⟨[⟨5, "bob", "Wallet5", "Key5"⟩], [defaultSettingsRow 5], [], []⟩, true)
    ∧ create_user ⟨[⟨5, "bob", "Wallet5", "Key5"⟩], [defaultSettingsRow 5], [], []⟩ 5
        "eve" "Wallet6" "Key6"
      = (⟨[⟨5, "bob", "Wallet5", "Key5"⟩], [defaultSettingsRow 5], [], []⟩, false) :=
  ⟨(create_user_atomic ⟨[], [], [], []⟩ 5 "bob" "Wallet5" "Key5").2.2 (by decide) (by decide),
    (create_user_atomic ⟨[⟨5, "bob", "Wallet5", "Key5"⟩], [defaultSettingsRow 5], [], []⟩ 5
      "eve" "Wallet6" "Key6").1 (by decide)⟩

/-- Counterexample for C5: the claim promises that the underlying
connection is released on every exit path, including error paths.  On
the exit path where `conn.cursor()` itself raises, the `finally` block
evaluates `cursor.close()` on a name that was never bound, raises
`NameError`, and never reaches `conn.close()`: the connection is not
released (and the outcome does roll back, so the path is an error path
of a run, not an impossible one). -/
theorem get_cursor_conn_leak_cex :
    (get_cursor ⟨true, false, false⟩).connClosed = false
    ∧ (get_cursor ⟨true, false, false⟩).rolledBack = true := by
  decide

/-- Claim C5 (amended): every store operation runs inside a single
transaction that commits exactly when the body and the commit raise
nothing and rolls back on any exception, and the cursor and the
connection are both released on every exit path on which the cursor was
successfully acquired; when acquiring the cursor itself raises, the
connection is leaked. -/
theorem get_cursor_transaction_discipline (r : CursorRun)
    (h : r.cursorAcqRaises = false) :
    (get_cursor r).committed = (!r.bodyRaises && !r.commitRaises)
    ∧ (get_cursor r).rolledBack = (r.bodyRaises || r.commitRaises)
    ∧ (get_cursor r).cursorClosed = true
    ∧ (get_cursor r).connClosed = true
    ∧ (get_cursor r).raised = (r.bodyRaises || r.commitRaises) := by
  obtain ⟨a, b, c⟩ := r
  cases a with
  | false => cases b <;> cases c <;> decide
  | true => exact Bool.noConfusion h

/-- Witness for C5: a body exception with a healthy cursor rolls back,
raises, and still closes cursor and connection. -/
theorem get_cursor_transaction_discipline_witness :
    (get_cursor ⟨false, true, false⟩).committed = false
    ∧ (get_cursor ⟨false, true, false⟩).rolledBack = true
    ∧ (get_cursor ⟨false, true, false⟩).cursorClosed = true
    ∧ (get_cursor ⟨false, true, false⟩).connClosed = true
    ∧ (get_cursor ⟨false, true, false⟩).raised = true :=
  get_cursor_transaction_discipline ⟨false, true, false⟩ rfl

/-- Claim C9: the chain readers `get_balance` and `get_token_balance`
return zero on every lookup failure - a client exception, a null
balance value, an empty token-account list, or an unparsable amount
field - instead of propagating the error.  Both are read-only: neither
takes the store as an input at all, mirroring the source methods, which
perform no store access. -/
theorem chain_reader_zero_on_failure :
    ∀ (e e' : String) (rest : List (Option Int)),
      get_balance (.error e) = 0
      ∧ get_balance (.ok none) = 0
      ∧ get_token_balance (.error e') = 0
      ∧ get_token_balance (.ok []) = 0
      ∧ get_token_balance (.ok (none :: rest)) = 0 := by
  intro e e' rest
  exact ⟨rfl, rfl, rfl, rfl, rfl⟩

/-! ### Sell preconditions and sell-amount arithmetic -/

/-- Claim C3: a sell reads the token balance fresh from the ledger (the
only balance source of `swap_token_for_sol` is the chain RPC response;
the store - and hence the cached Position row - is not even an argument),
and when that live balance is not positive the sell fails with the
no-holdings error before any aggregator call: no quote, build or submit
request is issued. -/
theorem sell_no_holdings_before_aggregator
    (chain : Except String (List (Option Int))) (percentage : Int) (slippage : ℚ)
    (q : QuoteResp) (b : BuildResp) (sub : SubmitResp)
    (h : get_token_balance chain ≤ 0) :
    swap_token_for_sol chain percentage slippage q b sub
      = (.failure "No tokens to sell", []) := by
  unfold swap_token_for_sol
  simp only [if_pos h]

/-- Witness for C3: an empty token-account list gives live balance `0`
and the sell fails before the (failing) aggregator would even be
contacted. -/
theorem sell_no_holdings_before_aggregator_witness :
    get_token_balance (.ok []) ≤ 0
    ∧ swap_token_for_sol (.ok []) 100 15 .httpError .httpError (.err "down")
        = (.failure "No tokens to sell", []) :=
  ⟨by decide,
    sell_no_holdings_before_aggregator (.ok []) 100 15 .httpError .httpError (.err "down")
      (by decide)⟩

/-! ### Buy and sell orchestration -/

/-- Claim C6: when the freshly read SOL balance is below the requested
spend, the buy fails with the insufficient-balance reply reporting the
required amount versus the available balance, and the store is returned
exactly as it was: no Trade, Position or Settings write happens. -/
theorem buy_insufficient_balance_no_store_writes (s : Store) (user : UserRow)
    (tok : String) (amount slippage : ℚ) (balResp : Except String (Option Nat))
    (q : QuoteResp) (b : BuildResp) (sub : SubmitResp)
    (h : get_balance balResp < amount) :
    handle_buy s user (some tok) amount slippage balResp q b sub
      = (s, .insufficientFunds amount (get_balance balResp)) := by
  simp only [handle_buy]
  rw [if_pos h]

/-- Witness for C6: a wallet holding 1 SOL cannot buy for 5 SOL, and the
(empty) store is untouched. -/
theorem buy_insufficient_balance_no_store_writes_witness :
    get_balance (.ok (some 1000000000)) < 5
    ∧ handle_buy ⟨[], [], [], []⟩ ⟨3, "carol", "WalletC", "KeyC"⟩ (some "MintD") 5 15
        (.ok (some 1000000000)) (.ok 1) (.ok "blob") (.ok "sg3")
      = (⟨[], [], [], []⟩, .insufficientFunds 5 (get_balance (.ok (some 1000000000)))) :=
  ⟨by norm_num [get_balance, LAMPORTS_PER_SOL],
    buy_insufficient_balance_no_store_writes _ _ _ _ _ _ _ _ _
      (by norm_num [get_balance, LAMPORTS_PER_SOL])⟩

/-- Claim C1 (the code is the defect): the successful buy of 1 SOL with
a quoted `outAmount` of 500000 appends exactly the Trade row
`{side = BUY, amount_in = 1, amount_out = 500000}` - but writes no
Position row at all: `update_position` is never called on the buy path,
although the claim (and the spec scenario) require
`Position{amount = 500000}` to be upserted. -/
theorem buy_success_records_trade_but_no_position :
    (handle_buy ⟨[], [], [], []⟩ ⟨1, "alice", "WalletA", "KeyA"⟩ (some "MintA") 1 15
        (.ok (some 2000000000)) (.ok 500000) (.ok "blob") (.ok "sig1")).1.trades
      = [⟨1, "MintA", "BUY", 1, 500000, "sig1"⟩]
    ∧ (handle_buy ⟨[], [], [], []⟩ ⟨1, "alice", "WalletA", "KeyA"⟩ (some "MintA") 1 15
        (.ok (some 2000000000)) (.ok 500000) (.ok "blob") (.ok "sig1")).1.positions
      = ([] : List PositionRow)
    ∧ (handle_buy ⟨[], [], [], []⟩ ⟨1, "alice", "WalletA", "KeyA"⟩ (some "MintA") 1 15
        (.ok (some 2000000000)) (.ok 500000) (.ok "blob") (.ok "sig1")).2
      = .buySuccess "sig1" := by
  refine ⟨?_, ?_, ?_⟩ <;>
    norm_num [handle_buy, get_balance, LAMPORTS_PER_SOL, swap_sol_for_token, log_trade]

/-- Counterexample for C2: a fully successful buy (quote, build and
submit all succeed) does not merge the quoted output amount into the
Position for the traded key - the recorded position amount stays `0`
instead of growing by `600000` - so the success half of the claim is
false on the code. -/
theorem buy_success_does_not_merge_position_cex :
    (handle_buy ⟨[], [], [], []⟩ ⟨7, "grace", "WalletG", "KeyG"⟩ (some "MintB") (1/2) 15
        (.ok (some 1000000000)) (.ok 600000) (.ok "blob") (.ok "sg")).2
      = .buySuccess "sg"
    ∧ ¬ posAmount (handle_buy ⟨[], [], [], []⟩ ⟨7, "grace", "WalletG", "KeyG"⟩ (some "MintB")
          (1/2) 15 (.ok (some 1000000000)) (.ok 600000) (.ok "blob") (.ok "sg")).1 7 "MintB"
        = posAmount ⟨[], [], [], []⟩ 7 "MintB" + 600000 := by
  constructor <;>
    norm_num [handle_buy, get_balance, LAMPORTS_PER_SOL, swap_sol_for_token, log_trade,
      posAmount, posKey]

/-- Claim C2 (amended): for every buy or sell attempt, either the
quote-build-submit sequence succeeds end-to-end, in which case exactly
one Trade row is appended and nothing else in the store changes (in
particular no Position mutation is written, the deviation exhibited by
the counterexample), or it fails at some stage (quote, build or
submit), in which case the store is left completely unchanged: no Trade
row and no Position mutation is written. -/
theorem trade_handlers_atomic (s : Store) (user : UserRow) (tok : String)
    (amount slippage sellSlippage : ℚ) (balResp : Except String (Option Nat))
    (q : QuoteResp) (b : BuildResp) (sub : SubmitResp)
    (chain : Except String (List (Option Int))) (percentage : Int)
    (q' : QuoteResp) (b' : BuildResp) (sub' : SubmitResp) :
    (∀ sig ain aout, swap_sol_for_token amount slippage q b sub = .success sig ain aout →
        ¬ get_balance balResp < amount →
        handle_buy s user (some tok) amount slippage balResp q b sub
          = ({ s with
                trades := s.trades ++ [⟨user.telegram_id, tok, "BUY", amount, aout, sig⟩] },
              .buySuccess sig))
    ∧ (∀ e, swap_sol_for_token amount slippage q b sub = .failure e →
        (handle_buy s user (some tok) amount slippage balResp q b sub).1 = s)
    ∧ (∀ sig ain aout,
        (swap_token_for_sol chain percentage sellSlippage q' b' sub').1
            = .success sig ain aout →
        handle_sell s user (some tok) percentage sellSlippage chain q' b' sub'
          = ({ s with
                trades := s.trades ++ [⟨user.telegram_id, tok, "SELL", ain, aout, sig⟩] },
              .sellSuccess sig))
    ∧ (∀ e, (swap_token_for_sol chain percentage sellSlippage q' b' sub').1 = .failure e →
        (handle_sell s user (some tok) percentage sellSlippage chain q' b' sub').1 = s) := by
  refine ⟨?_, ?_, ?_, ?_⟩
  · intro sig ain aout hswap hbal
    simp only [handle_buy]
    rw [if_neg hbal, hswap]
    simp [log_trade]
  · intro e hswap
    by_cases hbal : get_balance balResp < amount
    · simp only [handle_buy]
      rw [if_pos hbal]
    · simp only [handle_buy]
      rw [if_neg hbal, hswap]
  · intro sig ain aout hswap
    simp only [handle_sell]
    rw [hswap]
    simp [log_trade]
  · intro e hswap
    simp only [handle_sell]
    rw [hswap]

/-- Witness for C2: a concrete all-stages-successful buy appends exactly
its Trade row to an empty store. -/
theorem trade_handlers_atomic_witness :
    handle_buy ⟨[], [], [], []⟩ ⟨4, "dave", "WalletD", "KeyD"⟩ (some "MintW") 1 15
        (.ok (some 3000000000)) (.ok 700000) (.ok "blob") (.ok "sgW")
      = ({ (⟨[], [], [], []⟩ : Store) with
            trades := (⟨[], [], [], []⟩ : Store).trades
              ++ [⟨4, "MintW", "BUY", 1, ((700000 : Int) : ℚ), "sgW"⟩] },
          .buySuccess "sgW") :=
  (trade_handlers_atomic ⟨[], [], [], []⟩ ⟨4, "dave", "WalletD", "KeyD"⟩ "MintW" 1 15 15
      (.ok (some 3000000000)) (.ok 700000) (.ok "blob") (.ok "sgW")
      (.ok []) 100 .httpError .httpError (.err "down")).1
    "sgW" 1 ((700000 : Int) : ℚ) rfl (by norm_num [get_balance, LAMPORTS_PER_SOL])

lemma mantissaShift_stop (fuel : Nat) (q : ℚ) (e : Int)
    (h1 : ¬ q < 4503599627370496) (h2 : ¬ 9007199254740992 ≤ q) :
    mantissaShift (fuel + 1) q e = (q, e) := by
  rw [mantissaShift, if_neg h1, if_neg h2]

lemma mantissaShift_down (fuel : Nat) (q : ℚ) (e : Int)
    (h1 : ¬ q < 4503599627370496) (h2 : 9007199254740992 ≤ q) :
    mantissaShift (fuel + 1) q e = mantissaShift fuel (q / 2) (e + 1) := by
  rw [mantissaShift, if_neg h1, if_pos h2]

lemma roundDouble_pos (q : ℚ) (h : 0 < q) :
    roundDouble q
      = (rne (mantissaShift 1200 q 0).1 : ℚ) * pow2 (mantissaShift 1200 q 0).2 := by
  unfold roundDouble
  rw [if_neg (not_le.mpr h)]

/-- Claim C7 (the code is the defect): the spec prescribes
`sell_amount = floor(balance * percentage / 100)`, but the source
computes `int(balance * percentage / 100)` with float true division.
At live balance `18014398509481987` (= 2^54 + 3 smallest units) and
percentage `25`, the exact value is `4503599627370496.75`, whose floor
is `4503599627370496`, yet the correctly-rounded double of the quotient
is `4503599627370497.0`, so the code sells one smallest unit more than
the floor.  With percentage `100` and balance `9007199254740995` the
code even computes `9007199254740996`, one unit more than the entire
holding. -/
theorem sell_amount_float_deviates_from_floor :
    pySellAmount 18014398509481987 25 = 4503599627370497
    ∧ (18014398509481987 * 25 : Int) / 100 = 4503599627370496
    ∧ pySellAmount 9007199254740995 100 = 9007199254740996 := by
  refine ⟨?_, by decide, ?_⟩
  · unfold pySellAmount
    rw [roundDouble_pos _ (by norm_num)]
    rw [show (1200 : Nat) = 1199 + 1 from rfl]
    rw [mantissaShift_stop 1199 _ _ (by norm_num) (by norm_num)]
    have hfl : ⌊((18014398509481987 : Int) : ℚ) * ((25 : Int) : ℚ) / 100⌋
        = 4503599627370496 := by norm_num
    simp only [rne]
    norm_num [hfl, pow2]
  · unfold pySellAmount
    rw [roundDouble_pos _ (by norm_num)]
    rw [show (1200 : Nat) = 1199 + 1 from rfl]
    rw [mantissaShift_down 1199 _ _ (by norm_num) (by norm_num)]
    rw [show (1199 : Nat) = 1198 + 1 from rfl]
    rw [mantissaShift_stop 1198 _ _ (by norm_num) (by norm_num)]
    have hfl : ⌊((9007199254740995 : Int) : ℚ) * ((100 : Int) : ℚ) / 100 / 2⌋
        = 4503599627370497 := by norm_num
    simp only [rne]
    norm_num [hfl, pow2]

end Bot
